import Mathlib

set_option maxHeartbeats 1000000

/-! Verification of the visible OpenVINO inference-engine slice:
the type-erased parameter container (`InferenceEngine::Parameter` /
`Parameter::Any` / `Parameter::RealData<T>`, out-of-line parts in
`src/inference_engine/ie_rtti.cpp`, in-header parts modelled from the
specification where noted), the `Precision` template helpers
(`Precision::fromType`, `Precision::hasStorageType`), and the control flow
of the classification sample (`samples/classification_sample_async/main.cpp`).
-/

namespace IE

/-- Opaque carrier standing for the C++ `float` value type held by
`RealData<float>`.  The container never inspects float values itself: it only
delegates to the type's own `operator==`, which we model as the carrier's
decidable equality.  Only the type identity (distinct from `int` etc.)
matters for the container's semantics. -/
structure CFloat where
  bits : Int
deriving DecidableEq, Repr

/-- Opaque handle standing for `InferenceEngine::Blob::Ptr`
(a `std::shared_ptr<Blob>`), identified by pointer identity, which is what
`shared_ptr::operator==` compares. -/
structure BlobPtr where
  addr : Nat
deriving DecidableEq, Repr

/-- The closed universe of held value types instantiated for
`Parameter::RealData<T>` in `ie_rtti.cpp` (lines 108-119), plus `long`
(`is<long>` matters for exact-type matching), standing for C++ `typeid`
tags.  Distinct constructors are distinct C++ static types even when the
Lean carrier coincides (e.g. `int` vs `long`). -/
inductive Ty
  | tInt
  | tLong
  | tBool
  | tFloat
  | tUInt32
  | tString
  | tULong
  | tVecInt
  | tVecString
  | tVecULong
  | tTup2
  | tTup3
  | tBlob
deriving DecidableEq, Repr

/-- The Lean carrier of each C++ value type. -/
@[reducible]
def Ty.denote : Ty → Type
  | .tInt => Int
  | .tLong => Int
  | .tBool => Bool
  | .tFloat => CFloat
  | .tUInt32 => Nat
  | .tString => String
  | .tULong => Nat
  | .tVecInt => List Int
  | .tVecString => List String
  | .tVecULong => List Nat
  | .tTup2 => Nat × Nat
  | .tTup3 => Nat × Nat × Nat
  | .tBlob => BlobPtr

/-- The held type's own `operator==`, used by the container only through
delegation.  For the value types instantiated here this is structural
equality (C++ `int`, `std::string`, `std::vector`, `std::tuple` compare
componentwise; `shared_ptr` by pointer identity). -/
def Ty.beq : (t : Ty) → t.denote → t.denote → Bool
  | .tInt, a, b => decide (a = b)
  | .tLong, a, b => decide (a = b)
  | .tBool, a, b => decide (a = b)
  | .tFloat, a, b => decide (a = b)
  | .tUInt32, a, b => decide (a = b)
  | .tString, a, b => decide (a = b)
  | .tULong, a, b => decide (a = b)
  | .tVecInt, a, b => decide (a = b)
  | .tVecString, a, b => decide (a = b)
  | .tVecULong, a, b => decide (a = b)
  | .tTup2, a, b => decide (a = b)
  | .tTup3, a, b => decide (a = b)
  | .tBlob, a, b => decide (a = b)

/-- `Parameter::RealData<T>`: the concrete backing cell holding the actual
value of type `T` (`ie_parameter.hpp`, instantiated in `ie_rtti.cpp`). -/
structure RealData (t : Ty) where
  value : t.denote

/-- `Parameter::RealData<T>::is(const std::type_info& id)`
(`ie_rtti.cpp` lines 98-101): `return id == typeid(T);`. -/
def RealData.is {t : Ty} (_self : RealData t) (id : Ty) : Bool :=
  id == t

/-- `Parameter::Any`: the abstract base of the backing cells; a cell is some
`RealData<T>` together with its static type `T`, and virtual dispatch on the
base reads that type. -/
structure Any where
  ty : Ty
  cell : RealData ty

/-- Virtual call `any.is(id)` dispatching to `RealData<ty>::is(id)`. -/
def Any.is (a : Any) (id : Ty) : Bool :=
  a.cell.is id

/-- Modelled from the spec: the header-only helper `equal<T>(left, rhs)` of
`ie_parameter.hpp` (not under `src/`), which casts the right-hand cell to
`T` and "delegates to the held type's own equality comparison". -/
def equalValues (t : Ty) (x : RealData t) (rhs : Any) : Bool :=
  if h : rhs.ty = t then Ty.beq t x.value (h ▸ rhs.cell).value else false

/-- `Parameter::RealData<T>::operator==(const Parameter::Any& rhs)`
(`ie_rtti.cpp` lines 103-106):
`return rhs.is(typeid(T)) && equal<T>(*this, rhs);`. -/
def RealData.eqOp {t : Ty} (self : RealData t) (rhs : Any) : Bool :=
  rhs.is t && equalValues t self rhs

/-- `InferenceEngine::Parameter`: the type-erased front-facing handle; it
owns at most one backing cell (`ptr` is the owned `Any*`, empty when null). -/
structure Parameter where
  ptr : Option Any

/-- Modelled from the spec: `Parameter::empty()` (`ie_parameter.hpp`, not
under `src/`) — "`empty() -> bool` — true iff no value is held". -/
def Parameter.empty (p : Parameter) : Bool :=
  p.ptr.isNone

/-- `Parameter::is<T>()` (`ie_rtti.cpp` lines 93-96):
`return empty() ? false : ptr->is(typeid(T));`.  The `none` arm of the inner
match is unreachable (`empty()` is false there) and mirrors that the virtual
call happens only on a non-null `ptr`. -/
def Parameter.is (p : Parameter) (t : Ty) : Bool :=
  if p.empty then false
  else
    match p.ptr with
    | some a => a.is t
    | none => false

/-- The single failure kind of the container.  "EmptyAccess" is a subcase:
retrieval from an empty container fails exactly like a type mismatch. -/
inductive ParamError
  | typeMismatch
deriving DecidableEq, Repr

/-- Modelled from the spec: `Parameter::as<T>()` (`ie_parameter.hpp`, not
under `src/`) — "fails with a `TypeMismatch` error when `is<T>()` is false;
otherwise returns a mutable reference to the held value without copying";
retrieval from an empty container "behaves as if no type matches". -/
def Parameter.as (p : Parameter) (t : Ty) : Except ParamError t.denote :=
  match p.ptr with
  | none => .error .typeMismatch
  | some a =>
    if h : a.ty = t then .ok (h ▸ a.cell).value
    else .error .typeMismatch

/-- Modelled from the spec: construction from a typed value
(`ie_parameter.hpp`, not under `src/`) — "captures `value` by copy, records
its concrete type `T`. No error conditions; always succeeds". -/
def Parameter.ofVal (t : Ty) (v : t.denote) : Parameter :=
  ⟨some ⟨t, ⟨v⟩⟩⟩

/-- Modelled from the spec: `Parameter::clear()` (`ie_parameter.hpp`, not
under `src/`) — "releases the held value; container becomes empty". -/
def Parameter.clear (_p : Parameter) : Parameter :=
  ⟨none⟩

/-- `Parameter::~Parameter()` (`ie_rtti.cpp` lines 86-88): the destructor
body is exactly `clear();`, so destruction leaves the released state that
`clear` produces. -/
def Parameter.destruct (p : Parameter) : Parameter :=
  p.clear

/-- Modelled from the spec: copy-construction / copy-assignment
(`ie_parameter.hpp`, not under `src/`) — "deep-copies the held value via the
held type's own copy semantics; source and destination become
independent". -/
def Parameter.copy (p : Parameter) : Parameter :=
  match p.ptr with
  | none => ⟨none⟩
  | some a => ⟨some ⟨a.ty, ⟨a.cell.value⟩⟩⟩

/-- Modelled from the spec: assignment of a typed value through the handle
(or through the mutable reference returned by `as<T>()`) — "mutated by
assignment (replaces held value, possibly changing held type)". -/
def Parameter.assign (_p : Parameter) (t : Ty) (v : t.denote) : Parameter :=
  ⟨some ⟨t, ⟨v⟩⟩⟩

/-- Modelled from the spec: `Parameter::operator==` (`ie_parameter.hpp`, not
under `src/`) — "returns false immediately if either side is empty and the
other is not, or if held types differ; otherwise delegates to the held
type's own equality comparison.  Two empty containers compare equal."  The
non-empty case dispatches to `RealData<T>::operator==` from `ie_rtti.cpp`
lines 103-106, which performs the type check and the delegation. -/
def Parameter.eq (p q : Parameter) : Bool :=
  match p.ptr, q.ptr with
  | none, none => true
  | none, some _ => false
  | some _, none => false
  | some a, some b => a.cell.eqOp b

/-! `ie_precision.hpp` helpers (`ie_rtti.cpp` lines 190-247).  The
`Precision` class body itself lives in the header (not under `src/`); the
parts the visible template bodies consume — the enum of precision values,
`size()`, `name()`/`areSameStrings`, and the `(bitsSize, name)` constructor
— are modelled minimally below, each marked as such. -/

/-- The storage classes `T` for which `ie_rtti.cpp` instantiates
`Precision::fromType` / `Precision::hasStorageType` (lines 233-247), as
canonical fixed-width C types of the LP64 target the sample is built for
(`int` = `int32_t`, `short` = `int16_t`, `long` = `int64_t`,
`unsigned char` = `uint8_t`, ...). -/
inductive CType
  | cfloat
  | cdouble
  | int8
  | uint8
  | int16
  | uint16
  | int32
  | uint32
  | int64
  | uint64
deriving DecidableEq, Repr

/-- `sizeof(T)` on the LP64 target. -/
def sizeofC : CType → Nat
  | .cfloat => 4
  | .cdouble => 8
  | .int8 => 1
  | .uint8 => 1
  | .int16 => 2
  | .uint16 => 2
  | .int32 => 4
  | .uint32 => 4
  | .int64 => 8
  | .uint64 => 8

/-- Modelled from the spec: `typeid(T).name()` — an implementation-defined
string uniquely naming the static type; the Itanium ABI mangle codes the
target toolchain produces. -/
def typeidName : CType → String
  | .cfloat => "f"
  | .cdouble => "d"
  | .int8 => "a"
  | .uint8 => "h"
  | .int16 => "s"
  | .uint16 => "t"
  | .int32 => "i"
  | .uint32 => "j"
  | .int64 => "l"
  | .uint64 => "m"

/-- Modelled from the spec: the enum `Precision::ePrecision`
(`ie_precision.hpp`, not under `src/`).  The eleven values named by the
`switch` in `Precision::hasStorageType` (`ie_rtti.cpp` lines 212-223) plus
the remaining tags, which all fall to that switch's `default` branch. -/
inductive EPrecision
  | UNSPECIFIED
  | MIXED
  | FP32
  | FP16
  | Q78
  | I16
  | U8
  | I8
  | U16
  | I32
  | I64
  | BIN
  | BOOL
  | CUSTOM
deriving DecidableEq, Repr

/-- Modelled from the spec: the `Precision(bitsSize, name)` constructor
(`ie_precision.hpp`, not under `src/`) records the supplied bit width and
type name. -/
structure Precision where
  bitsSize : Nat
  name : String
deriving DecidableEq, Repr

/-- `Precision::fromType<T>(const char* typeName)` (`ie_rtti.cpp` lines
191-194): `return Precision(8 * sizeof(T), typeName == nullptr ?
typeid(T).name() : typeName);`.  The nullable C string is an
`Option String`. -/
def fromType (t : CType) (typeName : Option String) : Precision :=
  ⟨8 * sizeofC t, match typeName with
    | none => typeidName t
    | some s => s⟩

/-- `Precision::hasStorageType<T>(const char* typeName)` (`ie_rtti.cpp`
lines 197-232).  `value` is `precisionInfo.value`; `precSize` abstracts the
header-defined `size()` of the current precision; `nameMatch` abstracts the
header-defined `areSameStrings(name(), typeName == nullptr ?
typeid(T).name() : typeName)` consulted by the `default` branch.  The body
is a total function: the C++ `try`/`catch (...)` around pure comparisons
makes the template `noexcept` in effect. -/
def hasStorageType (value : EPrecision) (precSize : Nat) (nameMatch : Bool)
    (t : CType) : Bool :=
  if value ≠ EPrecision.BIN ∧ sizeofC t ≠ precSize then false
  else
    match value with
    | .FP32 => t == .cfloat
    | .FP16 => t == .int16 || t == .uint16
    | .I16 => t == .int16
    | .I32 => t == .int32
    | .I64 => t == .int64
    | .U16 => t == .uint16
    | .U8 => t == .uint8
    | .I8 => t == .int8
    | .BOOL => t == .uint8
    | .Q78 => t == .int16 || t == .uint16
    | .BIN => t == .int8 || t == .uint8
    | _ => nameMatch

/-- The `std::is_same` table of the `switch` alone (`CASE`/`CASE2` arms,
`ie_rtti.cpp` lines 212-223), written from the claim's reading: for each
enumerated precision, whether `T` is one of the listed storage types. -/
def storageTypeTable (value : EPrecision) (t : CType) : Bool :=
  match value with
  | .FP32 => t == .cfloat
  | .FP16 => t == .int16 || t == .uint16
  | .I16 => t == .int16
  | .I32 => t == .int32
  | .I64 => t == .int64
  | .U16 => t == .uint16
  | .U8 => t == .uint8
  | .I8 => t == .int8
  | .BOOL => t == .uint8
  | .Q78 => t == .int16 || t == .uint16
  | .BIN => t == .int8 || t == .uint8
  | _ => false

/-- Whether a precision value is one of the eleven enumerated by the
`switch` in `hasStorageType`. -/
def enumeratedPrecision (value : EPrecision) : Bool :=
  match value with
  | .FP32 | .FP16 | .I16 | .I32 | .I64 | .U16 | .U8 | .I8 | .BOOL | .Q78
  | .BIN => true
  | _ => false

/-! The classification sample
(`samples/classification_sample_async/main.cpp`).  Everything the sample
calls on the external inference runtime is out of scope per the spec; the
model keeps `main`'s own control flow exact and lets an environment record
supplies each external call's outcome.  Calls the sample only sequences
(logging, setters, `setBatchSize`) are kept implicit. -/

/-- A C++ exception escaping an external call: a `std::exception` (caught
at line 201) or anything else (caught at line 205). -/
inductive ExcKind
  | stdExc
  | unknownExc
deriving DecidableEq, Repr

/-- Outcomes of the external calls `main` makes, in program order. -/
structure Env where
  pluginRes : Except ExcKind Unit
  readNetworkRes : Except ExcKind Unit
  readWeightsRes : Except ExcKind Unit
  getNetworkRes : Except ExcKind Unit
  inputsCount : Except ExcKind Nat
  readerIsNull : Bool
  dataIsNull : Bool
  outputsRes : Except ExcKind (List (String × Bool))
  outputDims : List Nat
  loadNetworkRes : Except ExcKind Unit
  createRequestRes : Except ExcKind Unit
  inputBlobRes : Except ExcKind Unit
  inferRes : Except ExcKind Unit
  outputBlobRes : Except ExcKind Unit
  inferMs : Rat

/-- Observable events of a run of `main`. -/
inductive Event
  | imageBound (path : String)
  | inferCall
  | timingLogged (ms : Rat)
deriving DecidableEq, Repr

/-- Whether an event is the synchronous `inferRequest.Infer()` call. -/
def Event.isInfer : Event → Bool
  | .inferCall => true
  | _ => false

/-- The single hardcoded image path pushed at `main.cpp` line 35. -/
def imagePath : String := "/vendor/etc/openvino/car_resized.bmp"

/-- The `imageNames` vector after the hardcoded `push_back`
(`main.cpp` lines 34-35). -/
def imageNames : List String := [imagePath]

/-- `std::fabs` on the model's rational stand-in for `double`. -/
def fabsQ (q : Rat) : Rat :=
  if Rat.blt q 0 then -q else q

/-- `std::numeric_limits<double>::epsilon()` exactly: `2^-52`. -/
def dblEps : Rat := ⟨1, 2 ^ 52, by norm_num, by norm_num⟩

/-- The output-checking loop of `main.cpp` lines 100-111: whether some
output `DataPtr` is null (`!outputData`). -/
def anyNullOutput (outs : List (String × Bool)) : Bool :=
  outs.any fun o => !o.2

/-- The `outputCorrect` check of `main.cpp` lines 115-121: the output is
2-dimensional (NC), or 4-dimensional (NCHW) with `H = W = 1`. -/
def outputDimsOk (dims : List Nat) : Bool :=
  dims.length == 2 ||
    (dims.length == 4 && (dims.getD 2 0 == 1 && dims.getD 3 0 == 1))

/-- The timing guard of `main.cpp` line 189:
`std::fabs(total) < std::numeric_limits<double>::epsilon()`. -/
def totalBelowEps (total : Rat) : Bool :=
  Rat.blt (fabsQ total) dblEps

/-- The exit code and event trace of `main` (`main.cpp` lines 28-212).
Each `throw` — the sample's own `std::logic_error`s included — lands in the
`catch` blocks at lines 201-208, which return 1.  The `begin()` dereference
at line 113 is abstracted by the environment-supplied `outputDims` (on an
empty output map it is undefined behaviour in the source). -/
def runMain (env : Env) : Nat × List Event :=
  if imageNames.isEmpty then (1, []) else
  match env.pluginRes with
  | .error _ => (1, [])
  | .ok _ =>
  match env.readNetworkRes with
  | .error _ => (1, [])
  | .ok _ =>
  match env.readWeightsRes with
  | .error _ => (1, [])
  | .ok _ =>
  match env.getNetworkRes with
  | .error _ => (1, [])
  | .ok _ =>
  match env.inputsCount with
  | .error _ => (1, [])
  | .ok n =>
  if n ≠ 1 then (1, []) else
  let boundImages : List Event :=
    if env.readerIsNull then []
    else if env.dataIsNull then []
    else [.imageBound imagePath]
  if boundImages.isEmpty then (1, boundImages) else
  match env.outputsRes with
  | .error _ => (1, boundImages)
  | .ok outs =>
  if anyNullOutput outs then (1, boundImages) else
  if !outputDimsOk env.outputDims then (1, boundImages) else
  match env.loadNetworkRes with
  | .error _ => (1, boundImages)
  | .ok _ =>
  match env.createRequestRes with
  | .error _ => (1, boundImages)
  | .ok _ =>
  match env.inputBlobRes with
  | .error _ => (1, boundImages)
  | .ok _ =>
  let tr := boundImages ++ [Event.inferCall]
  match env.inferRes with
  | .error _ => (1, tr)
  | .ok _ =>
  let total := env.inferMs
  match env.outputBlobRes with
  | .error _ => (1, tr)
  | .ok _ =>
  if totalBelowEps total then (1, tr)
  else (0, tr ++ [Event.timingLogged total])

/-- Whether an external-call outcome is exception-free. -/
def okE {α : Type} : Except ExcKind α → Bool
  | .ok _ => true
  | .error _ => false

/-- Written from the claim's words (C9): every step completes successfully —
no exception anywhere in the pipeline (the sample's own `logic_error`
throws for a missing single input or unreadable image included), every
output data pointer non-null, output dimensions NC or NCHW with H = W = 1,
and the measured total time at least the double epsilon. -/
def specExitSuccess (env : Env) : Bool :=
  okE env.pluginRes && okE env.readNetworkRes && okE env.readWeightsRes &&
  okE env.getNetworkRes &&
  (match env.inputsCount with
   | .ok n => n == 1
   | .error _ => false) &&
  !env.readerIsNull && !env.dataIsNull &&
  (match env.outputsRes with
   | .ok outs => !anyNullOutput outs
   | .error _ => false) &&
  outputDimsOk env.outputDims &&
  okE env.loadNetworkRes && okE env.createRequestRes &&
  okE env.inputBlobRes && okE env.inferRes && okE env.outputBlobRes &&
  !totalBelowEps env.inferMs

/-! Helper lemmas shared by the claim theorems. -/

/-- Every held type's own equality accepts a value against itself (the value
types instantiated for the container all have reflexive `operator==`). -/
theorem Ty.beq_refl (t : Ty) (v : t.denote) : Ty.beq t v v = true := by
  cases t <;> simp [Ty.beq]

/-- Two containers holding the same concrete type compare by the held
type's own equality on the held values. -/
theorem Parameter.eq_same_ty (t : Ty) (x y : RealData t) :
    Parameter.eq ⟨some ⟨t, x⟩⟩ ⟨some ⟨t, y⟩⟩ = Ty.beq t x.value y.value := by
  cases t <;> rfl

theorem boolTrueOrFalse (b : Bool) : b = true ∨ b = false := by
  cases b <;> simp

theorem boolFalseOrTrue (b : Bool) : b = false ∨ b = true := by
  cases b <;> simp

/-- C1: `Parameter::is<T>()` is true iff a value is held and its stored
type exactly matches `T`; `RealData<T>::is(type)` is true iff `type`
denotes exactly `T`; `is<T>()` is false on an empty container; and a
container holding an `int` reports false for `is<long>()`. -/
theorem Parameter.is_exact_type_match :
    (∀ (p : Parameter) (t : Ty),
        p.is t = true ↔ ∃ a, p.ptr = some a ∧ a.ty = t)
    ∧ (∀ (t : Ty) (c : RealData t) (id : Ty), c.is id = true ↔ id = t)
    ∧ (∀ (p : Parameter) (t : Ty), p.empty = true → p.is t = false)
    ∧ (Parameter.ofVal .tInt 5).is .tLong = false := by
  refine ⟨fun p t => ?_, fun t c id => ?_, fun p t h => ?_, by decide⟩
  · rcases p with ⟨_ | a⟩
    · simp [Parameter.is, Parameter.empty]
    · constructor
      · intro h
        have hb : (t == a.ty) = true := h
        exact ⟨a, rfl, (beq_iff_eq.mp hb).symm⟩
      · rintro ⟨b, hb, hty⟩
        obtain rfl : a = b := Option.some.inj hb
        show (t == a.ty) = true
        exact beq_iff_eq.mpr hty.symm
  · simp [RealData.is]
  · rcases p with ⟨_ | a⟩
    · rfl
    · simp [Parameter.empty] at h

/-- Witness for C1 at concrete inputs. -/
theorem Parameter.is_exact_type_match_witness :
    Parameter.is ⟨none⟩ .tInt = false
    ∧ (Parameter.ofVal .tInt 5).is .tLong = false :=
  ⟨Parameter.is_exact_type_match.2.2.1 ⟨none⟩ .tInt rfl,
   Parameter.is_exact_type_match.2.2.2⟩

/-- C2: `as<T>()` fails with the `TypeMismatch` error exactly when
`is<T>()` is false (the empty container included), and otherwise returns
the held value itself, never a coerced one. -/
theorem Parameter.as_mismatch_spec :
    ∀ (p : Parameter) (t : Ty),
      (p.as t = .error .typeMismatch ↔ p.is t = false)
      ∧ ∀ a, p.ptr = some a → ∀ h : a.ty = t,
          p.as t = .ok (h ▸ a.cell).value := by
  intro p t
  constructor
  · rcases p with ⟨_ | a⟩
    · simp [Parameter.as, Parameter.is, Parameter.empty]
    · rcases a with ⟨ta, x⟩
      by_cases h : ta = t
      · subst h
        cases ta <;>
          simp [Parameter.as, Parameter.is, Parameter.empty, Any.is,
            RealData.is]
      · simp [Parameter.as, Parameter.is, Parameter.empty, Any.is,
          RealData.is, h, Ne.symm h]
  · intro a ha h
    rcases p with ⟨ptr⟩
    cases ha
    subst h
    rcases a with ⟨ta, x⟩
    cases ta <;> rfl

/-- Witness for C2 at concrete inputs. -/
theorem Parameter.as_mismatch_spec_witness :
    (Parameter.ofVal .tString "hello").as .tString = .ok "hello"
    ∧ (Parameter.ofVal .tString "hello").as .tInt
        = .error .typeMismatch :=
  ⟨(Parameter.as_mismatch_spec (Parameter.ofVal .tString "hello")
      .tString).2 ⟨.tString, ⟨"hello"⟩⟩ rfl rfl,
   (Parameter.as_mismatch_spec (Parameter.ofVal .tString "hello")
      .tInt).1.mpr (by decide)⟩

/-- C3: container equality is false when exactly one side is empty or the
held types differ (whatever the values, e.g. `int(5)` vs `float(5.0)`),
delegates to the held type's own comparison when the types agree, and two
empty containers compare equal. -/
theorem Parameter.eq_type_gated :
    (∀ p q : Parameter, p.empty = true → q.empty = true → p.eq q = true)
    ∧ (∀ p q : Parameter, p.empty ≠ q.empty → p.eq q = false)
    ∧ (∀ a b : Any, a.ty ≠ b.ty → Parameter.eq ⟨some a⟩ ⟨some b⟩ = false)
    ∧ (∀ (t : Ty) (x y : RealData t),
        Parameter.eq ⟨some ⟨t, x⟩⟩ ⟨some ⟨t, y⟩⟩ = Ty.beq t x.value y.value)
    ∧ Parameter.eq (Parameter.ofVal .tInt 5) (Parameter.ofVal .tFloat ⟨5⟩)
        = false := by
  refine ⟨?_, ?_, ?_, fun t x y => Parameter.eq_same_ty t x y, by decide⟩
  · intro p q hp hq
    rcases p with ⟨_ | a⟩ <;> rcases q with ⟨_ | b⟩ <;>
      simp_all [Parameter.empty, Parameter.eq]
  · intro p q hpq
    rcases p with ⟨_ | a⟩ <;> rcases q with ⟨_ | b⟩ <;>
      simp_all [Parameter.empty, Parameter.eq]
  · intro a b hab
    have hne : (a.ty == b.ty) = false := beq_eq_false_iff_ne.mpr hab
    simp [Parameter.eq, RealData.eqOp, Any.is, RealData.is, hne]

/-- Witness for C3 at concrete inputs. -/
theorem Parameter.eq_type_gated_witness :
    Parameter.eq ⟨none⟩ ⟨none⟩ = true
    ∧ Parameter.eq ⟨none⟩ (Parameter.ofVal .tInt 0) = false
    ∧ Parameter.eq (Parameter.ofVal .tInt 5) (Parameter.ofVal .tLong 5)
        = false
    ∧ Parameter.eq (Parameter.ofVal .tString "a")
        (Parameter.ofVal .tString "b") = Ty.beq .tString "a" "b" :=
  ⟨Parameter.eq_type_gated.1 ⟨none⟩ ⟨none⟩ rfl rfl,
   Parameter.eq_type_gated.2.1 ⟨none⟩ (Parameter.ofVal .tInt 0) (by decide),
   Parameter.eq_type_gated.2.2.1 ⟨.tInt, ⟨5⟩⟩ ⟨.tLong, ⟨5⟩⟩ (by decide),
   Parameter.eq_type_gated.2.2.2.1 .tString ⟨"a"⟩ ⟨"b"⟩⟩

/-- C4: round-trip — a container constructed from `v : T` reports
`is<T>()` true, `is<U>()` false for every distinct `U`, and `as<T>()`
yields the captured value. -/
theorem Parameter.construct_roundtrip :
    ∀ (t : Ty) (v : t.denote),
      (Parameter.ofVal t v).is t = true
      ∧ (∀ u : Ty, u ≠ t → (Parameter.ofVal t v).is u = false)
      ∧ (Parameter.ofVal t v).as t = .ok v := by
  intro t v
  refine ⟨?_, fun u hu => ?_, ?_⟩
  · cases t <;> rfl
  · have hne : (u == t) = false := beq_eq_false_iff_ne.mpr hu
    simp [Parameter.is, Parameter.ofVal, Parameter.empty, Any.is,
      RealData.is, hne]
  · cases t <;> rfl

/-- Witness for C4 at concrete inputs. -/
theorem Parameter.construct_roundtrip_witness :
    (Parameter.ofVal .tString "hello").is .tString = true
    ∧ (Parameter.ofVal .tString "hello").is .tInt = false
    ∧ (Parameter.ofVal .tString "hello").as .tString = .ok "hello" :=
  ⟨(Parameter.construct_roundtrip .tString "hello").1,
   (Parameter.construct_roundtrip .tString "hello").2.1 .tInt (by decide),
   (Parameter.construct_roundtrip .tString "hello").2.2⟩

/-- C5: copying a non-empty container yields an equal value of the same
concrete type, the two compare equal right after the copy, and the copy's
storage is independent: overwriting the copy's value leaves the source
holding its original value, and a divergent overwrite makes the two
containers compare unequal. -/
theorem Parameter.copy_fidelity :
    ∀ (p : Parameter) (a : Any), p.ptr = some a →
      p.copy.ptr = some ⟨a.ty, ⟨a.cell.value⟩⟩
      ∧ p.eq p.copy = true
      ∧ (∀ w : a.ty.denote,
          (p.copy.assign a.ty w).ptr = some ⟨a.ty, ⟨w⟩⟩ ∧ p.ptr = some a)
      ∧ ∀ w : a.ty.denote, Ty.beq a.ty a.cell.value w = false →
          p.eq (p.copy.assign a.ty w) = false := by
  intro p a hp
  rcases p with ⟨ptr⟩
  cases hp
  rcases a with ⟨t, x⟩
  exact ⟨rfl,
    (Parameter.eq_same_ty t x ⟨x.value⟩).trans (Ty.beq_refl t x.value),
    fun w => ⟨rfl, rfl⟩,
    fun w hw => (Parameter.eq_same_ty t x ⟨w⟩).trans hw⟩

/-- Witness for C5 at concrete inputs (the spec's `[1,2,3]` scenario). -/
theorem Parameter.copy_fidelity_witness :
    (Parameter.ofVal .tVecInt [1, 2, 3]).copy.ptr
        = some ⟨.tVecInt, ⟨[1, 2, 3]⟩⟩
    ∧ Parameter.eq (Parameter.ofVal .tVecInt [1, 2, 3])
        (Parameter.ofVal .tVecInt [1, 2, 3]).copy = true
    ∧ Parameter.eq (Parameter.ofVal .tVecInt [1, 2, 3])
        ((Parameter.ofVal .tVecInt [1, 2, 3]).copy.assign .tVecInt
          [1, 2, 3, 4]) = false :=
  have h := Parameter.copy_fidelity (Parameter.ofVal .tVecInt [1, 2, 3])
    ⟨.tVecInt, ⟨[1, 2, 3]⟩⟩ rfl
  ⟨h.1, h.2.1, h.2.2.2 [1, 2, 3, 4] (by decide)⟩

/-- C6: after `clear()` the container is empty and matches no type;
clearing an already-empty container is a no-op; and the destructor has
exactly the effect of `clear()`. -/
theorem Parameter.clear_releases :
    ∀ p : Parameter,
      p.clear.empty = true
      ∧ (∀ t, p.clear.is t = false)
      ∧ (p.empty = true → p.clear = p)
      ∧ p.destruct = p.clear := by
  intro p
  refine ⟨rfl, fun t => rfl, fun h => ?_, rfl⟩
  rcases p with ⟨_ | a⟩
  · rfl
  · simp [Parameter.empty] at h

/-- Witness for C6 at concrete inputs. -/
theorem Parameter.clear_releases_witness :
    (Parameter.ofVal .tInt 1).clear.empty = true
    ∧ (Parameter.ofVal .tInt 1).clear.is .tInt = false
    ∧ Parameter.clear ⟨none⟩ = (⟨none⟩ : Parameter) :=
  ⟨(Parameter.clear_releases (Parameter.ofVal .tInt 1)).1,
   (Parameter.clear_releases (Parameter.ofVal .tInt 1)).2.1 .tInt,
   (Parameter.clear_releases ⟨none⟩).2.2.1 rfl⟩

/-- C8: `Precision::hasStorageType<T>` is a total (non-throwing) check
that, for every precision other than `BIN`, returns false whenever
`sizeof(T)` differs from the precision's `size()`, and that, when the
sizes agree, decides the eleven enumerated precisions exactly by the
`std::is_same` table of the `switch` (for `BIN` the table applies with no
size condition at all). -/
theorem hasStorageType_exact :
    ∀ (value : EPrecision) (precSize : Nat) (nameMatch : Bool) (t : CType),
      (value ≠ .BIN → sizeofC t ≠ precSize →
        hasStorageType value precSize nameMatch t = false)
      ∧ (sizeofC t = precSize → enumeratedPrecision value = true →
        hasStorageType value precSize nameMatch t = storageTypeTable value t)
      ∧ hasStorageType .BIN precSize nameMatch t
          = storageTypeTable .BIN t := by
  intro value precSize nameMatch t
  refine ⟨fun h1 h2 => ?_, fun hsz henum => ?_, ?_⟩
  · simp only [hasStorageType]
    rw [if_pos ⟨h1, h2⟩]
  · cases value <;>
      simp_all [hasStorageType, storageTypeTable, enumeratedPrecision]
  · simp [hasStorageType, storageTypeTable]

/-- Witness for C8 at concrete inputs: `FP32` against `float` with wrong
and with matching size. -/
theorem hasStorageType_exact_witness :
    hasStorageType .FP32 8 false .cfloat = false
    ∧ hasStorageType .FP32 4 false .cfloat
        = storageTypeTable .FP32 .cfloat :=
  ⟨(hasStorageType_exact .FP32 8 false .cfloat).1 (by decide) (by decide),
   (hasStorageType_exact .FP32 4 false .cfloat).2.1 (by decide) (by decide)⟩

/-- C10: `Precision::fromType<T>(typeName)` records a bit width of exactly
`8 * sizeof(T)`, and the supplied name when it is non-null, else
`typeid(T).name()`. -/
theorem fromType_bits_and_name :
    ∀ (t : CType) (typeName : Option String),
      (fromType t typeName).bitsSize = 8 * sizeofC t
      ∧ (typeName = none → (fromType t typeName).name = typeidName t)
      ∧ (∀ s, typeName = some s → (fromType t typeName).name = s) := by
  intro t tn
  refine ⟨rfl, fun h => ?_, fun s h => ?_⟩ <;> subst h <;> rfl

/-- Witness for C10 at concrete inputs. -/
theorem fromType_bits_and_name_witness :
    (fromType .cfloat none).bitsSize = 32
    ∧ (fromType .cfloat none).name = typeidName .cfloat
    ∧ (fromType .cfloat (some "float32")).name = "float32" :=
  ⟨(fromType_bits_and_name .cfloat none).1,
   (fromType_bits_and_name .cfloat none).2.1 rfl,
   (fromType_bits_and_name .cfloat (some "float32")).2.2 "float32" rfl⟩

/-- Master characterization of a run of the sample: a run either meets the
pipeline's success conditions and exits 0 after binding the one image,
calling `Infer` once and logging the timing, or exits 1 with a proper
prefix of that trace. -/
theorem runMain_char (env : Env) :
    (specExitSuccess env = true
      ∧ runMain env = (0, [Event.imageBound imagePath, Event.inferCall,
          Event.timingLogged env.inferMs]))
    ∨ (specExitSuccess env = false ∧ (runMain env).1 = 1
      ∧ ((runMain env).2 = []
          ∨ (runMain env).2 = [Event.imageBound imagePath]
          ∨ (runMain env).2 = [Event.imageBound imagePath,
              Event.inferCall])) := by
  obtain ⟨x1, x2, x3, x4, x5, x6, x7, x8, x9, x10, x11, x12, x13, x14, x15⟩
    := env
  obtain (e | u1) := x1
  · exact Or.inr (by simp [runMain, specExitSuccess, okE, imageNames])
  obtain (e | u2) := x2
  · exact Or.inr (by simp [runMain, specExitSuccess, okE, imageNames])
  obtain (e | u3) := x3
  · exact Or.inr (by simp [runMain, specExitSuccess, okE, imageNames])
  obtain (e | u4) := x4
  · exact Or.inr (by simp [runMain, specExitSuccess, okE, imageNames])
  obtain (e | n) := x5
  · exact Or.inr (by simp [runMain, specExitSuccess, okE, imageNames])
  rcases ne_or_eq n 1 with hn | hn
  · exact Or.inr (by simp [runMain, specExitSuccess, okE, imageNames, hn])
  subst hn
  rcases boolTrueOrFalse x6 with h6 | h6
  · subst h6
    exact Or.inr (by simp [runMain, specExitSuccess, okE, imageNames])
  subst h6
  rcases boolTrueOrFalse x7 with h7 | h7
  · subst h7
    exact Or.inr (by simp [runMain, specExitSuccess, okE, imageNames])
  subst h7
  obtain (e | outs) := x8
  · exact Or.inr (by simp [runMain, specExitSuccess, okE, imageNames])
  rcases boolTrueOrFalse (anyNullOutput outs) with h8 | h8
  · exact Or.inr (by simp [runMain, specExitSuccess, okE, imageNames, h8])
  rcases boolFalseOrTrue (outputDimsOk x9) with hd | hd
  · exact Or.inr
      (by simp [runMain, specExitSuccess, okE, imageNames, h8, hd])
  obtain (e | u10) := x10
  · exact Or.inr
      (by simp [runMain, specExitSuccess, okE, imageNames, h8, hd])
  obtain (e | u11) := x11
  · exact Or.inr
      (by simp [runMain, specExitSuccess, okE, imageNames, h8, hd])
  obtain (e | u12) := x12
  · exact Or.inr
      (by simp [runMain, specExitSuccess, okE, imageNames, h8, hd])
  obtain (e | u13) := x13
  · exact Or.inr
      (by simp [runMain, specExitSuccess, okE, imageNames, h8, hd])
  obtain (e | u14) := x14
  · exact Or.inr
      (by simp [runMain, specExitSuccess, okE, imageNames, h8, hd])
  rcases boolTrueOrFalse (totalBelowEps x15) with he | he
  · exact Or.inr
      (by simp [runMain, specExitSuccess, okE, imageNames, h8, hd, he])
  exact Or.inl
    (by simp [runMain, specExitSuccess, okE, imageNames, h8, hd, he])

/-- C7: the sample is single-shot — the image list is the one hardcoded
path, no run calls `Infer` more than once, and a run that exits 0 made
exactly one synchronous `Infer` call and logged the measured timing. -/
theorem sample_single_shot :
    imageNames = [imagePath]
    ∧ (∀ env : Env, (runMain env).2.countP Event.isInfer ≤ 1)
    ∧ ∀ env : Env, (runMain env).1 = 0 →
        (runMain env).2.countP Event.isInfer = 1
        ∧ Event.timingLogged env.inferMs ∈ (runMain env).2 := by
  refine ⟨rfl, fun env => ?_, fun env h0 => ?_⟩
  · rcases runMain_char env with ⟨_, hr⟩ | ⟨_, _, hr | hr | hr⟩
    · rw [hr]
      simp [List.countP_cons, Event.isInfer]
    all_goals rw [hr]
    all_goals simp [List.countP_cons, Event.isInfer]
  · rcases runMain_char env with ⟨_, hr⟩ | ⟨_, h1, _⟩
    · rw [hr]
      constructor
      · simp [List.countP_cons, Event.isInfer]
      · simp
    · rw [h1] at h0
      exact absurd h0 (by decide)

/-- Witness for C7: a fully successful environment. -/
theorem sample_single_shot_witness :
    (runMain ⟨.ok (), .ok (), .ok (), .ok (), .ok 1, false, false,
        .ok [("prob", true)], [1, 1000], .ok (), .ok (), .ok (), .ok (),
        .ok (), 1⟩).1 = 0
    ∧ (runMain ⟨.ok (), .ok (), .ok (), .ok (), .ok 1, false, false,
        .ok [("prob", true)], [1, 1000], .ok (), .ok (), .ok (), .ok (),
        .ok (), 1⟩).2.countP Event.isInfer = 1
    ∧ Event.timingLogged 1 ∈ (runMain ⟨.ok (), .ok (), .ok (), .ok (),
        .ok 1, false, false, .ok [("prob", true)], [1, 1000], .ok (),
        .ok (), .ok (), .ok (), .ok (), 1⟩).2 :=
  have h := sample_single_shot.2.2
    ⟨.ok (), .ok (), .ok (), .ok (), .ok 1, false, false,
      .ok [("prob", true)], [1, 1000], .ok (), .ok (), .ok (), .ok (),
      .ok (), 1⟩ (by decide)
  ⟨by decide, h.1, h.2⟩

/-- C9: the sample's `main` returns only 0 or 1, and returns 0 exactly
when every pipeline step succeeds — no exception of any kind, no null
output data pointer, output dimensions NC or NCHW with H = W = 1, and a
measured total time at least the double-precision epsilon; each of those
failures yields exit code 1. -/
theorem sample_exit_code_spec :
    ∀ env : Env,
      ((runMain env).1 = 0 ∨ (runMain env).1 = 1)
      ∧ ((runMain env).1 = 0 ↔ specExitSuccess env = true) := by
  intro env
  rcases runMain_char env with ⟨hs, hr⟩ | ⟨hs, h1, _⟩
  · rw [hr]
    exact ⟨Or.inl rfl, by simp [hs]⟩
  · rw [h1]
    exact ⟨Or.inr rfl, by simp [hs]⟩

end IE
